import Mathlib

/-!
# Week13 time endpoint: the root handler of `main.go`

A shallow embedding of the request handler registered in `main` and of the
library calls it makes (`time.LoadLocation`, `time.Now`, `Time.In`,
`Time.Format`, `db.Exec`, `template.ParseFiles`, `Template.Execute`,
`http.Error`), followed by theorems about the handler.

The handler is sequential, so one request is a pure function from the
outcomes of its library calls (a `World`) and the contents of `time_log` to
the response, the new contents of `time_log` and the list of calls made.
-/

namespace Week13

/-! ## Package `time`: calendar arithmetic and `Format` -/

/-- Zone data returned by `time.LoadLocation`: `lookup sec` is the offset, in
seconds east of UTC, in effect at Unix time `sec`. -/
structure Location where
  name : String
  lookup : Int → Int

/-- Value of `time.Time`: seconds and nanoseconds since the Unix epoch, and
the location the instant is shown in (`none` before `In` is called). -/
structure Time where
  unixSec : Int
  nsec : Nat
  loc : Option Location

/-- Method `Time.In`: same instant, shown in `loc`. -/
def Time.In (t : Time) (loc : Location) : Time :=
  { t with loc := some loc }

def secondsPerMinute : Nat := 60
def secondsPerHour : Nat := 60 * secondsPerMinute
def secondsPerDay : Nat := 24 * secondsPerHour
def daysPer400Years : Nat := 365 * 400 + 97
def daysPer100Years : Nat := 365 * 100 + 24
def daysPer4Years : Nat := 365 * 4 + 1

/-- Year of the zero point of absolute time (a multiple of 400, plus one). -/
def absoluteZeroYear : Int := -292277022399

/-- Sum `unixToInternal + internalToAbsolute`: absolute seconds of the Unix epoch. -/
def unixToAbsolute : Int := 9223372028715321600

/-- Method `Time.abs`: seconds since the absolute zero year, in the zone of
the location, as a 64-bit unsigned value. -/
def Time.abs (t : Time) : Nat :=
  let offset : Int := match t.loc with
    | some l => l.lookup t.unixSec
    | none => 0
  ((t.unixSec + offset + unixToAbsolute) % (2 ^ 64 : Int)).toNat

/-- Function `isLeap`. -/
def isLeap (year : Int) : Bool :=
  year % 4 == 0 && (year % 100 != 0 || year % 400 == 0)

/-- Table `daysBefore`: days in a non-leap year before month `m + 1` starts. -/
def daysBefore : List Nat :=
  [0, 31, 31 + 28, 31 + 28 + 31, 31 + 28 + 31 + 30, 31 + 28 + 31 + 30 + 31,
   31 + 28 + 31 + 30 + 31 + 30, 31 + 28 + 31 + 30 + 31 + 30 + 31,
   31 + 28 + 31 + 30 + 31 + 30 + 31 + 31,
   31 + 28 + 31 + 30 + 31 + 30 + 31 + 31 + 30,
   31 + 28 + 31 + 30 + 31 + 30 + 31 + 31 + 30 + 31,
   31 + 28 + 31 + 30 + 31 + 30 + 31 + 31 + 30 + 31 + 30,
   31 + 28 + 31 + 30 + 31 + 30 + 31 + 31 + 30 + 31 + 30 + 31]

/-- Result of `absDate`. -/
structure Date where
  year : Int
  month : Nat
  day : Nat
  yday : Nat
deriving DecidableEq

/-- Function `absDate` up to its `if !full { return }`: the year and the
zero-based day of the year of an absolute time. -/
def absYearDay (abs : Nat) : Int × Nat :=
  -- Split into time and day.
  let d := abs / secondsPerDay
  -- Account for 400 year cycles.
  let n := d / daysPer400Years
  let y := 400 * n
  let d := d - daysPer400Years * n
  -- Cut off 100-year cycles.
  let n := d / daysPer100Years
  let n := n - (n >>> 2)
  let y := y + 100 * n
  let d := d - daysPer100Years * n
  -- Cut off 4-year cycles.
  let n := d / daysPer4Years
  let y := y + 4 * n
  let d := d - daysPer4Years * n
  -- Cut off years within a 4-year cycle.
  let n := d / 365
  let n := n - (n >>> 2)
  let y := y + n
  let d := d - 365 * n
  ((y : Int) + absoluteZeroYear, d)

/-- Function `absDate` (with `full = true`): year, month, day of month and
zero-based day of year of an absolute time. -/
def absDate (abs : Nat) : Date :=
  let year := (absYearDay abs).1
  let yday := (absYearDay abs).2
  if isLeap year && yday == 31 + 29 - 1 then
    -- Leap day.
    { year := year, month := 2, day := 29, yday := yday }
  else
    -- After leap day; pretend it was not there.
    let day := if isLeap year && yday > 31 + 29 - 1 then yday - 1 else yday
    -- Estimate month on assumption that every month has 31 days.
    -- The estimate may be too low by at most one month, so adjust.
    let month := day / 31
    let e := daysBefore.getD (month + 1) 0
    let adjust := decide (day ≥ e)
    let begin := if adjust then e else daysBefore.getD month 0
    let month := if adjust then month + 1 else month
    -- because January is 1
    { year := year, month := month + 1, day := day - begin + 1, yday := yday }

/-- Result of `absClock`. -/
structure Clock where
  hour : Nat
  min : Nat
  sec : Nat
deriving DecidableEq

/-- Function `absClock`: hour, minute and second within the day. -/
def absClock (abs : Nat) : Clock :=
  let sec := abs % secondsPerDay
  let hour := sec / secondsPerHour
  let sec := sec - hour * secondsPerHour
  let min := sec / secondsPerMinute
  let sec := sec - min * secondsPerMinute
  { hour := hour, min := min, sec := sec }

/-- Decimal digit `d` as a character. -/
def digitChar (d : Nat) : Char := Char.ofNat (48 + d)

/-- Digits of `u`, most significant first, in front of `acc`; nothing for zero. -/
def digitsAux : Nat → Nat → List Char → List Char
  | 0, _, acc => acc
  | fuel + 1, u, acc =>
    if u = 0 then acc else digitsAux fuel (u / 10) (digitChar (u % 10) :: acc)

/-- Function `appendInt`: appends the decimal form of `x`, zero-padded to
`width` digits, with a leading minus sign when `x` is negative. -/
def appendInt (b : List Char) (x : Int) (width : Nat) : List Char :=
  let b := if x < 0 then b ++ ['-'] else b
  let u := x.natAbs
  let ds := if u = 0 then ['0'] else digitsAux u u []
  b ++ List.replicate (width - ds.length) '0' ++ ds

/-- Layout elements recognised by `nextStdChunk`, restricted to the numeric
date and clock elements. -/
inductive Std where
  | stdZeroMonth     -- layout text 01
  | stdZeroDay       -- layout text 02
  | stdZeroHour12    -- layout text 03
  | stdZeroMinute    -- layout text 04
  | stdZeroSecond    -- layout text 05
  | stdYear          -- layout text 06
  | stdZeroYearDay   -- layout text 002
  | stdHour          -- layout text 15
  | stdNumMonth      -- layout text 1
  | stdLongYear      -- layout text 2006
  | stdDay           -- layout text 2
  | stdHour12        -- layout text 3
  | stdMinute        -- layout text 4
  | stdSecond        -- layout text 5
deriving DecidableEq

/-- Table `std0x`: the element selected by the digit after a `0`. -/
def std0x (c : Char) : Std :=
  if c = '1' then .stdZeroMonth
  else if c = '2' then .stdZeroDay
  else if c = '3' then .stdZeroHour12
  else if c = '4' then .stdZeroMinute
  else if c = '5' then .stdZeroSecond
  else .stdYear

/-- Outcome of looking for a layout element at the head of a layout. -/
inductive Lexeme where
  | std (s : Std) (suffix : List Char)  -- an element starts here
  | literal                              -- the head character is copied as is
  | unmodelled                           -- a month or weekday name, zone, AM/PM or fraction may start here
deriving DecidableEq

/-- One iteration of the loop of `nextStdChunk`, at position `i` where
`layout[i:] = c :: rest`. Characters that can start a month or weekday name,
a zone, `PM`, `_2` or a fractional second are outside this fragment. -/
def stdAt (c : Char) (rest : List Char) : Lexeme :=
  if c = '0' then
    match rest with
    | c1 :: rest1 =>
      if '1' ≤ c1 ∧ c1 ≤ '6' then .std (std0x c1) rest1
      else match rest1 with
        | c2 :: rest2 => if c1 = '0' ∧ c2 = '2' then .std .stdZeroYearDay rest2 else .literal
        | [] => .literal
    | [] => .literal
  else if c = '1' then
    match rest with
    | c1 :: rest1 => if c1 = '5' then .std .stdHour rest1 else .std .stdNumMonth rest
    | [] => .std .stdNumMonth rest
  else if c = '2' then
    match rest with
    | '0' :: '0' :: '6' :: rest3 => .std .stdLongYear rest3
    | _ => .std .stdDay rest
  else if c = '3' then .std .stdHour12 rest
  else if c = '4' then .std .stdMinute rest
  else if c = '5' then .std .stdSecond rest
  else if c = '-' then
    match rest with
    | '0' :: '7' :: _ => .unmodelled
    | _ => .literal
  else if c = 'J' ∨ c = 'M' ∨ c = '_' ∨ c = 'P' ∨ c = 'p' ∨ c = 'Z' ∨ c = '.' ∨ c = ',' then
    .unmodelled
  else .literal

/-- Function `nextStdChunk`: the literal text before the first layout element,
the element, and the rest of the layout; `some (layout, none, [])` when the
layout holds no element, `none` outside the modelled fragment. -/
def nextStdChunk : List Char → Option (List Char × Option Std × List Char)
  | [] => some ([], none, [])
  | c :: rest =>
    match stdAt c rest with
    | .std s suffix => some ([], some s, suffix)
    | .unmodelled => none
    | .literal =>
      match nextStdChunk rest with
      | some (pre, s, suffix) => some (c :: pre, s, suffix)
      | none => none

/-- One case of the `switch std & stdMask` of `appendFormat`. -/
def appendStd (b : List Char) (s : Std) (d : Date) (c : Clock) : List Char :=
  match s with
  | .stdYear => appendInt b ((if d.year < 0 then -d.year else d.year) % 100) 2
  | .stdLongYear => appendInt b d.year 4
  | .stdNumMonth => appendInt b d.month 0
  | .stdZeroMonth => appendInt b d.month 2
  | .stdDay => appendInt b d.day 0
  | .stdZeroDay => appendInt b d.day 2
  | .stdZeroYearDay => appendInt b (d.yday + 1) 3
  | .stdHour => appendInt b c.hour 2
  | .stdHour12 => appendInt b (if c.hour % 12 = 0 then 12 else c.hour % 12) 0
  | .stdZeroHour12 => appendInt b (if c.hour % 12 = 0 then 12 else c.hour % 12) 2
  | .stdMinute => appendInt b c.min 0
  | .stdZeroMinute => appendInt b c.min 2
  | .stdSecond => appendInt b c.sec 0
  | .stdZeroSecond => appendInt b c.sec 2

/-- Loop of `appendFormat`: each iteration copies the literal text and
generates one element; `fuel` bounds the number of iterations. -/
def appendFormat (d : Date) (c : Clock) : Nat → List Char → List Char → Option (List Char)
  | 0, b, layout => if layout = [] then some b else none
  | fuel + 1, b, layout =>
    if layout = [] then some b
    else
      match nextStdChunk layout with
      | none => none
      | some (pre, none, _) => some (b ++ pre)
      | some (pre, some s, suffix) => appendFormat d c fuel (appendStd (b ++ pre) s d c) suffix

/-- Method `Time.Format`: the textual form of `t` under `layout`; `none` only
for layouts outside the modelled fragment. -/
def Time.Format (t : Time) (layout : String) : Option String :=
  let abs := t.abs
  (appendFormat (absDate abs) (absClock abs) layout.length [] layout.data).map String.mk

/-- Method `Time.Year`. -/
def Time.Year (t : Time) : Int := (absDate t.abs).year

/-! ## Package `net/http`: the response writer -/

def StatusOK : Nat := 200
def StatusInternalServerError : Nat := 500

/-- Response header map. -/
abbrev Header := List (String × String)

/-- Method `Header.Del`. -/
def Header.Del (h : Header) (key : String) : Header :=
  h.filter (fun kv => kv.1 != key)

/-- Method `Header.Set`. -/
def Header.Set (h : Header) (key value : String) : Header :=
  Header.Del h key ++ [(key, value)]

/-- State of an `http.ResponseWriter`: the header map, whether the status
line has been committed and with which code, and the body written so far. -/
structure ResponseWriter where
  header : Header
  wroteHeader : Bool
  status : Nat
  body : String
deriving DecidableEq

/-- Writer handed to the handler at the start of a request. -/
def ResponseWriter.fresh : ResponseWriter :=
  { header := [], wroteHeader := false, status := 0, body := "" }

/-- Method `WriteHeader`: commits the status code; a call after the status
has been committed is superfluous and changes nothing. -/
def ResponseWriter.WriteHeader (w : ResponseWriter) (code : Nat) : ResponseWriter :=
  if w.wroteHeader then w else { w with wroteHeader := true, status := code }

/-- Method `Write`: the first write commits status 200 when no status has
been committed yet; the data is added to the body. -/
def ResponseWriter.Write (w : ResponseWriter) (data : String) : ResponseWriter :=
  let w := if !w.wroteHeader then w.WriteHeader StatusOK else w
  { w with body := w.body ++ data }

/-- Function `http.Error`: sets the plain-text headers, writes the status
code and prints the message followed by a newline. -/
def httpError (w : ResponseWriter) (error : String) (code : Nat) : ResponseWriter :=
  let h := Header.Del w.header "Content-Length"
  let h := Header.Set h "Content-Type" "text/plain; charset=utf-8"
  let h := Header.Set h "X-Content-Type-Options" "nosniff"
  let w := { w with header := h }
  let w := w.WriteHeader code
  w.Write (error ++ "\n")

/-- What the server does when the handler returns: a response whose status
was never committed is sent with status 200. -/
def finishRequest (w : ResponseWriter) : ResponseWriter :=
  if !w.wroteHeader then w.WriteHeader StatusOK else w

/-! ## Package `html/template` -/

/-- Struct `PageVariables`: the data for the template. -/
structure PageVariables where
  Time : String
deriving DecidableEq

/-- Error value returned by a library call (its message). -/
abbrev GoError := String

/-- Parsed template: `run data` is the sequence of chunks execution writes,
in order, and the error that stops it, if any. -/
structure Template where
  run : PageVariables → List String × Option GoError

/-- Method `Template.Execute`: writes the chunks to `w` one after another and
returns the error of the execution. -/
def Template.Execute (t : Template) (w : ResponseWriter) (data : PageVariables) :
    ResponseWriter × Option GoError :=
  let r := t.run data
  (r.1.foldl ResponseWriter.Write w, r.2)

/-! ## Package `database/sql`: table `time_log` -/

/-- Contents of table `time_log`: the values of column `timestamp`, in
insertion order. -/
abbrev TimeLog := List String

/-- Statement of the handler. -/
def insertQuery : String := "INSERT INTO time_log (timestamp) VALUES (?)"

/-- Method `db.Exec`: when the store reports `fault` the statement fails and
adds nothing; otherwise the insert statement adds one row holding its single
argument. Other statements are not interpreted. -/
def dbExec (fault : Option GoError) (rows : TimeLog) (query : String) (args : List String) :
    TimeLog × Option GoError :=
  match fault with
  | some e => (rows, some e)
  | none =>
    if query = insertQuery then
      match args with
      | [v] => (rows ++ [v], none)
      | _ => (rows, some "sql: wrong number of arguments")
    else (rows, some "sql: statement not interpreted")

/-! ## The handler for the root path -/

/-- Incoming request; the handler does not look at it. -/
structure Request where
  method : String
  path : String
deriving DecidableEq

/-- Outcomes of the library calls of one request: zone data lookup, the
clock reading, whether the store rejects a statement given its contents, and
the template file. -/
structure World where
  loadLocation : String → Except GoError Location
  now : Time
  dbFault : TimeLog → String → List String → Option GoError
  parseFiles : String → Except GoError Template

/-- Library calls with an effect outside the handler, as made by it. -/
inductive Call where
  | loadLocation (name : String)
  | now
  | exec (query : String) (args : List String)
  | parseFiles (path : String)
  | execute (data : PageVariables)
  | httpError (msg : String) (code : Nat)
deriving DecidableEq

/-- Layout of the handler. -/
def layout : String := "2006-01-02 15:04:05"

/-- Expression `time.Now().In(location).Format("2006-01-02 15:04:05")`. The
layout lies in the modelled fragment, so the default is never taken
(`Format_layout_isSome`). -/
def currentTimeIn (now : Time) (location : Location) : String :=
  ((now.In location).Format layout).getD ""

/-- What one run of the handler leaves behind. -/
structure Outcome where
  w : ResponseWriter
  timeLog : TimeLog
  calls : List Call

/-- Handler registered for the root path in `main`. -/
def handler (env : World) (db : TimeLog) (w : ResponseWriter) (_r : Request) : Outcome :=
  -- Get the current time in Toronto timezone
  match env.loadLocation "America/Toronto" with
  | .error _ =>
    { w := httpError w "Error loading Toronto timezone" StatusInternalServerError
      timeLog := db
      calls := [.loadLocation "America/Toronto",
                .httpError "Error loading Toronto timezone" StatusInternalServerError] }
  | .ok location =>
    let currentTime := currentTimeIn env.now location
    -- Insert the current time into the database
    let ex := dbExec (env.dbFault db insertQuery [currentTime]) db insertQuery [currentTime]
    match ex.2 with
    | some _ =>
      { w := httpError w "Error logging time to database" StatusInternalServerError
        timeLog := ex.1
        calls := [.loadLocation "America/Toronto", .now, .exec insertQuery [currentTime],
                  .httpError "Error logging time to database" StatusInternalServerError] }
    | none =>
      -- Prepare the data for the HTML template
      let pageVariables : PageVariables := { Time := currentTime }
      -- Parse and execute the template
      match env.parseFiles "templates/index.html" with
      | .error _ =>
        { w := httpError w "Error loading template" StatusInternalServerError
          timeLog := ex.1
          calls := [.loadLocation "America/Toronto", .now, .exec insertQuery [currentTime],
                    .parseFiles "templates/index.html",
                    .httpError "Error loading template" StatusInternalServerError] }
      | .ok tmpl =>
        -- Render the template with the current time
        let r := tmpl.Execute w pageVariables
        match r.2 with
        | some _ =>
          { w := httpError r.1 "Error rendering template" StatusInternalServerError
            timeLog := ex.1
            calls := [.loadLocation "America/Toronto", .now, .exec insertQuery [currentTime],
                      .parseFiles "templates/index.html", .execute pageVariables,
                      .httpError "Error rendering template" StatusInternalServerError] }
        | none =>
          { w := r.1
            timeLog := ex.1
            calls := [.loadLocation "America/Toronto", .now, .exec insertQuery [currentTime],
                      .parseFiles "templates/index.html", .execute pageVariables] }

/-- One request served: the handler runs on a fresh writer and the server
completes the response. -/
def serve (env : World) (db : TimeLog) (r : Request) : Outcome :=
  let o := handler env db ResponseWriter.fresh r
  { o with w := finishRequest o.w }

/-- One position of the pattern: `\d` or a literal character. -/
inductive PatItem where
  | digit
  | lit (c : Char)
deriving DecidableEq

/-- Whether a character is accepted at a position; `\d` accepts `0` to `9`. -/
def PatItem.accepts : PatItem → Char → Bool
  | .digit, c => decide ('0' ≤ c ∧ c ≤ '9')
  | .lit l, c => decide (c = l)

/-- Anchored match of a text against a sequence of positions. -/
def matchesPattern : List PatItem → List Char → Bool
  | [], [] => true
  | p :: ps, c :: cs => p.accepts c && matchesPattern ps cs
  | _, _ => false

/-- Pattern `^\d{4}-\d{2}-\d{2} \d{2}:\d{2}:\d{2}$`. -/
def timestampPattern : List PatItem :=
  List.replicate 4 .digit ++ [.lit '-'] ++ List.replicate 2 .digit ++ [.lit '-'] ++
  List.replicate 2 .digit ++ [.lit ' '] ++ List.replicate 2 .digit ++ [.lit ':'] ++
  List.replicate 2 .digit ++ [.lit ':'] ++ List.replicate 2 .digit

/-- Zone data of America/Toronto while Eastern Standard Time is in effect
(UTC-5), as it is for the instants used below. -/
def torontoEST : Location := { name := "America/Toronto", lookup := fun _ => -18000 }

/-! ## Vocabulary of the specification -/

/-- Steps of the handler that can fail, in the order of the specification. -/
inductive Step where
  | timezone
  | insert
  | templateLoad
  | templateRender
deriving DecidableEq

/-- Fixed error message of each failure mode. -/
def Step.message : Step → String
  | .timezone => "Error loading Toronto timezone"
  | .insert => "Error logging time to database"
  | .templateLoad => "Error loading template"
  | .templateRender => "Error rendering template"

/-- Timestamp of a request: the clock reading formatted in the resolved zone;
none when the zone does not resolve. -/
def World.timestamp (env : World) : Option String :=
  match env.loadLocation "America/Toronto" with
  | .ok location => some (currentTimeIn env.now location)
  | .error _ => none

/-- First failing step in the order timezone resolution, insert, template
load, template render, read off the outcomes of the library calls; `none`
when every step succeeds. -/
def firstFailure (env : World) (db : TimeLog) : Option Step :=
  match env.loadLocation "America/Toronto" with
  | .error _ => some .timezone
  | .ok location =>
    if (env.dbFault db insertQuery [currentTimeIn env.now location]).isSome then some .insert
    else
      match env.parseFiles "templates/index.html" with
      | .error _ => some .templateLoad
      | .ok tmpl =>
        if (tmpl.run { Time := currentTimeIn env.now location }).2.isSome then
          some .templateRender
        else none

/-- Steps up to and including the first failing one; all four when none fails. -/
def stepsThrough : Option Step → List Step
  | some .timezone => [.timezone]
  | some .insert => [.timezone, .insert]
  | some .templateLoad => [.timezone, .insert, .templateLoad]
  | some .templateRender => [.timezone, .insert, .templateLoad, .templateRender]
  | none => [.timezone, .insert, .templateLoad, .templateRender]

/-- Step a library call belongs to. -/
def Call.step : Call → Option Step
  | .loadLocation _ => some .timezone
  | .exec _ _ => some .insert
  | .parseFiles _ => some .templateLoad
  | .execute _ => some .templateRender
  | _ => none

/-- Steps executed, in order. -/
def stepsRun (calls : List Call) : List Step := calls.filterMap Call.step

/-- Message of a call of `http.Error`. -/
def Call.errorMessage : Call → Option String
  | .httpError msg _ => some msg
  | _ => none

/-- Error messages written, in order. -/
def errorMessages (calls : List Call) : List String := calls.filterMap Call.errorMessage

/-- Whether a call is an attempt to insert. -/
def Call.isExec : Call → Bool
  | .exec _ _ => true
  | _ => false

/-- All-or-nothing reading of a request on a table holding `db`: either
status 200 with one row added, or an error status with the table unchanged. -/
def allOrNothing (db : TimeLog) (o : Outcome) : Prop :=
  (o.w.status = StatusOK ∧ ∃ row, o.timeLog = db ++ [row]) ∨
  (o.w.status = StatusInternalServerError ∧ o.timeLog = db)

/-! ## Sample requests -/

def getRoot : Request := { method := "GET", path := "/" }

/-- Template that renders the time inside a heading. -/
def headingTemplate : Template :=
  { run := fun data => (["<h1>", data.Time, "</h1>"], none) }

/-- Template that writes the opening of a heading and the time and then
fails, as an action on a field the data lacks does. -/
def failingTemplate : Template :=
  { run := fun data => (["<h1>", data.Time], some "cannot evaluate field Zone") }

/-- Healthy surroundings with the clock at `sec` seconds and `nsec`
nanoseconds after the Unix epoch. -/
def worldAt (sec : Int) (nsec : Nat) : World :=
  { loadLocation := fun _ => .ok torontoEST
    now := { unixSec := sec, nsec := nsec, loc := none }
    dbFault := fun _ _ _ => none
    parseFiles := fun _ => .ok headingTemplate }

/-- No zone data installed. -/
def worldNoZone : World :=
  { worldAt 1700000000 0 with loadLocation := fun _ => .error "unknown time zone America/Toronto" }

/-- Store unreachable. -/
def worldDbDown : World :=
  { worldAt 1700000000 0 with dbFault := fun _ _ _ => some "dial tcp 127.0.0.1:3306: connection refused" }

/-- Template file absent. -/
def worldNoTemplate : World :=
  { worldAt 1700000000 0 with
    parseFiles := fun _ => .error "open templates/index.html: no such file or directory" }

/-- Template that fails after writing part of the page. -/
def worldRenderFails : World :=
  { worldAt 1700000000 0 with parseFiles := fun _ => .ok failingTemplate }

/-! # Theorems -/

/-! ## Calendar arithmetic and formatting -/

theorem digitChar_accepts (d : Nat) (h : d < 10) : PatItem.digit.accepts (digitChar d) = true := by
  interval_cases d <;> decide

theorem digitsAux_spec (fuel : Nat) : ∀ (u k : Nat) (acc : List Char), u < 10 ^ k →
    ∃ ds, digitsAux fuel u acc = ds ++ acc ∧ ds.length ≤ k ∧
      ∀ c ∈ ds, PatItem.digit.accepts c = true := by
  induction fuel with
  | zero => intro u k acc _; exact ⟨[], by simp [digitsAux]⟩
  | succ fuel ih =>
    intro u k acc hu
    unfold digitsAux
    split
    · exact ⟨[], by simp⟩
    · rename_i hne
      cases k with
      | zero => simp at hu; omega
      | succ k =>
        have hu2 : u / 10 < 10 ^ k := by
          rw [Nat.pow_succ] at hu
          omega
        obtain ⟨ds, h1, h2, h3⟩ := ih (u / 10) k (digitChar (u % 10) :: acc) hu2
        refine ⟨ds ++ [digitChar (u % 10)], by simp [h1], by simp; omega, ?_⟩
        intro c hc
        rcases List.mem_append.mp hc with h | h
        · exact h3 c h
        · simp at h; subst h; exact digitChar_accepts _ (Nat.mod_lt _ (by decide))

theorem matchesPattern_append : ∀ (p q : List PatItem) (a b : List Char),
    matchesPattern p a = true → matchesPattern q b = true →
    matchesPattern (p ++ q) (a ++ b) = true := by
  intro p
  induction p with
  | nil => intro q a b ha hb; cases a <;> simp_all [matchesPattern]
  | cons x p ih =>
    intro q a b ha hb
    cases a with
    | nil => simp [matchesPattern] at ha
    | cons c a =>
      simp [matchesPattern] at ha ⊢
      exact ⟨ha.1, ih q a b ha.2 hb⟩

theorem matchesPattern_digits : ∀ (ds : List Char),
    (∀ c ∈ ds, PatItem.digit.accepts c = true) →
    matchesPattern (List.replicate ds.length .digit) ds = true := by
  intro ds
  induction ds with
  | nil => intro _; rfl
  | cons c ds ih =>
    intro h
    simp only [List.length_cons, List.replicate_succ, matchesPattern, Bool.and_eq_true]
    exact ⟨h c (by simp), ih (fun c hc => h c (by simp [hc]))⟩

theorem appendInt_eq (b : List Char) (x : Int) (w : Nat) :
    appendInt b x w = b ++ appendInt [] x w := by
  unfold appendInt
  split <;> simp

theorem appendInt_field (x : Int) (w : Nat) (h0 : 0 ≤ x) (hw : x < 10 ^ w) (hpos : 0 < w) :
    matchesPattern (List.replicate w .digit) (appendInt [] x w) = true := by
  have hu : x.natAbs < 10 ^ w := by
    have : ((x.natAbs : Nat) : Int) < ((10 ^ w : Nat) : Int) := by
      rw [Int.natAbs_of_nonneg h0]; push_cast; exact hw
    exact_mod_cast this
  obtain ⟨ds, h1, h2, h3⟩ := digitsAux_spec x.natAbs x.natAbs w [] hu
  have hz : PatItem.digit.accepts '0' = true := by decide
  have key : ∀ l : List Char, l.length ≤ w → (∀ c ∈ l, PatItem.digit.accepts c = true) →
      matchesPattern (List.replicate w .digit) (List.replicate (w - l.length) '0' ++ l) = true := by
    intro l hl hd
    have hlen : (List.replicate (w - l.length) '0' ++ l).length = w := by
      simp; omega
    have := matchesPattern_digits (List.replicate (w - l.length) '0' ++ l) (by
      intro c hc
      rcases List.mem_append.mp hc with h | h
      · rw [(List.mem_replicate.mp h).2]; exact hz
      · exact hd c h)
    rwa [hlen] at this
  unfold appendInt
  simp only [not_lt.mpr h0, if_false, List.nil_append]
  split
  · exact key ['0'] (by simpa using hpos) (by intro c hc; simp at hc; subst hc; exact hz)
  · rw [h1, List.append_nil]
    exact key ds h2 h3

theorem absClock_bounds (abs : Nat) :
    (absClock abs).hour < 24 ∧ (absClock abs).min < 60 ∧ (absClock abs).sec < 60 := by
  simp only [absClock, secondsPerDay, secondsPerHour, secondsPerMinute]
  omega

theorem cycle_arith (d0 n400 d1 q100 n100 d2 n4 d3 q1 n1 yday : Nat) (year : Int)
    (h1 : n400 = d0 / 146097) (h2 : d1 = d0 - 146097 * n400) (h3 : q100 = d1 / 36524)
    (h4 : n100 = q100 - q100 / 2 / 2) (h5 : d2 = d1 - 36524 * n100) (h6 : n4 = d2 / 1461)
    (h7 : d3 = d2 - 1461 * n4) (h8 : q1 = d3 / 365) (h9 : n1 = q1 - q1 / 2 / 2)
    (h10 : yday = d3 - 365 * n1)
    (hy : year = ((400 * n400 + 100 * n100 + 4 * n4 + n1 : Nat) : Int) + (-292277022399)) :
    yday ≤ 365 ∧ (yday = 365 → year % 4 = 0 ∧ (year % 100 ≠ 0 ∨ year % 400 = 0)) := by
  have b1 : d1 < 146097 := by omega
  have b2 : n100 ≤ 3 := by omega
  have b3 : d2 ≤ 36524 ∧ (n100 < 3 → d2 < 36524) := by omega
  have b4 : n4 ≤ 24 := by omega
  have b5 : d3 ≤ 1460 ∧ (d2 < 36524 → n4 = 24 → d3 < 1460) := by omega
  have b6 : n1 ≤ 3 := by omega
  have b7 : yday ≤ 365 ∧ (yday = 365 → n1 = 3 ∧ d3 = 1460) := by omega
  refine ⟨b7.1, fun h => ?_⟩
  obtain ⟨e1, e2⟩ := b7.2 h
  have e3 : n4 < 24 ∨ n100 = 3 := by omega
  have hy2 : year = 400 * ((n400 : Int) - 730692556) + (100 * n100 + 4 * n4 + n1 + 1) := by
    rw [hy]; push_cast; ring
  generalize (n400 : Int) - 730692556 = k at hy2
  omega

theorem isLeap_iff (year : Int) :
    isLeap year = true ↔ year % 4 = 0 ∧ (year % 100 ≠ 0 ∨ year % 400 = 0) := by
  simp [isLeap]

theorem absYearDay_bounds (abs : Nat) :
    (absYearDay abs).2 ≤ 365 ∧ ((absYearDay abs).2 = 365 → isLeap (absYearDay abs).1 = true) := by
  rw [isLeap_iff]
  exact cycle_arith (abs / 86400) _ _ _ _ _ _ _ _ _ _ _ rfl rfl rfl rfl rfl rfl rfl rfl rfl rfl rfl

theorem month_arith (day : Nat) (h : day ≤ 364) :
    1 ≤ (if decide (day ≥ daysBefore.getD (day / 31 + 1) 0) then day / 31 + 1 else day / 31) + 1 ∧
    (if decide (day ≥ daysBefore.getD (day / 31 + 1) 0) then day / 31 + 1 else day / 31) + 1 ≤ 12 ∧
    1 ≤ day - (if decide (day ≥ daysBefore.getD (day / 31 + 1) 0)
        then daysBefore.getD (day / 31 + 1) 0 else daysBefore.getD (day / 31) 0) + 1 ∧
    day - (if decide (day ≥ daysBefore.getD (day / 31 + 1) 0)
        then daysBefore.getD (day / 31 + 1) 0 else daysBefore.getD (day / 31) 0) + 1 ≤ 31 := by
  have hm : day / 31 < 12 := by omega
  generalize hmq : day / 31 = m at hm ⊢
  interval_cases m <;> simp only [daysBefore, List.getD_cons_succ, List.getD_cons_zero,
    decide_eq_true_eq] <;> split <;> omega

theorem absDate_bounds (abs : Nat) :
    1 ≤ (absDate abs).month ∧ (absDate abs).month ≤ 12 ∧
    1 ≤ (absDate abs).day ∧ (absDate abs).day ≤ 31 := by
  obtain ⟨hb, hl⟩ := absYearDay_bounds abs
  unfold absDate
  generalize (absYearDay abs).1 = year at hl ⊢
  generalize (absYearDay abs).2 = yday at hb hl ⊢
  cases hleap : isLeap year
  · have hy : yday ≤ 364 := by
      rcases Nat.lt_or_ge yday 365 with h | h
      · omega
      · have := hl (by omega); rw [hleap] at this; cases this
    simp only [hleap, Bool.false_and, Bool.false_eq_true, if_false]
    exact month_arith yday hy
  · simp only [hleap, Bool.true_and]
    by_cases h59 : yday = 31 + 29 - 1
    · simp [h59]
    · have hb59 : (yday == 31 + 29 - 1) = false := by simpa using h59
      simp only [hb59, Bool.false_eq_true, if_false]
      by_cases h : yday > 31 + 29 - 1
      · have hy : yday - 1 ≤ 364 := by omega
        simpa only [h, decide_True, if_true] using month_arith (yday - 1) hy
      · have hy : yday ≤ 364 := by omega
        simpa only [h, decide_False, Bool.false_eq_true, if_false] using month_arith yday hy

theorem appendFormat_layout (d : Date) (c : Clock) :
    appendFormat d c layout.length [] layout.data =
      some (appendInt (appendInt (appendInt (appendInt (appendInt (appendInt [] d.year 4 ++ ['-'])
        d.month 2 ++ ['-']) d.day 2 ++ [' ']) c.hour 2 ++ [':']) c.min 2 ++ [':']) c.sec 2) := by
  rfl

theorem Format_layout_isSome (t : Time) : (t.Format layout).isSome = true := by
  simp [Time.Format, appendFormat_layout]

theorem timestamp_fields (d : Date) (c : Clock) (hy0 : 0 ≤ d.year) (hy1 : d.year ≤ 9999)
    (hm : d.month ≤ 12) (hd : d.day ≤ 31) (hh : c.hour < 24) (hmin : c.min < 60)
    (hs : c.sec < 60) :
    matchesPattern timestampPattern
      (appendInt (appendInt (appendInt (appendInt (appendInt (appendInt [] d.year 4 ++ ['-'])
        d.month 2 ++ ['-']) d.day 2 ++ [' ']) c.hour 2 ++ [':']) c.min 2 ++ [':']) c.sec 2) = true := by
  have f4 := appendInt_field d.year 4 hy0 (by omega) (by decide)
  have fm := appendInt_field d.month 2 (by omega) (by omega) (by decide)
  have fd := appendInt_field d.day 2 (by omega) (by omega) (by decide)
  have fh := appendInt_field c.hour 2 (by omega) (by omega) (by decide)
  have fmin := appendInt_field c.min 2 (by omega) (by omega) (by decide)
  have fs := appendInt_field c.sec 2 (by omega) (by omega) (by decide)
  have lit : ∀ ch : Char, matchesPattern [PatItem.lit ch] [ch] = true := by
    intro ch; simp [matchesPattern, PatItem.accepts]
  rw [appendInt_eq _ c.sec, appendInt_eq _ c.min, appendInt_eq _ c.hour, appendInt_eq _ d.day,
    appendInt_eq _ d.month]
  have t2 := matchesPattern_append _ _ _ _ f4 (lit '-')
  have t3 := matchesPattern_append _ _ _ _ t2 fm
  have t4 := matchesPattern_append _ _ _ _ t3 (lit '-')
  have t5 := matchesPattern_append _ _ _ _ t4 fd
  have t6 := matchesPattern_append _ _ _ _ t5 (lit ' ')
  have t7 := matchesPattern_append _ _ _ _ t6 fh
  have t8 := matchesPattern_append _ _ _ _ t7 (lit ':')
  have t9 := matchesPattern_append _ _ _ _ t8 fmin
  have t10 := matchesPattern_append _ _ _ _ t9 (lit ':')
  exact matchesPattern_append _ _ _ _ t10 fs

theorem matchesPattern_length : ∀ (p : List PatItem) (s : List Char),
    matchesPattern p s = true → s.length = p.length := by
  intro p
  induction p with
  | nil => intro s h; cases s <;> simp_all [matchesPattern]
  | cons x p ih =>
    intro s h
    cases s with
    | nil => simp [matchesPattern] at h
    | cons c s =>
      simp [matchesPattern] at h
      simp [ih s h.2]

theorem currentTimeIn_data (now : Time) (location : Location) :
    (currentTimeIn now location).data =
      appendInt (appendInt (appendInt (appendInt (appendInt (appendInt []
        (absDate (now.In location).abs).year 4 ++ ['-'])
        (absDate (now.In location).abs).month 2 ++ ['-'])
        (absDate (now.In location).abs).day 2 ++ [' '])
        (absClock (now.In location).abs).hour 2 ++ [':'])
        (absClock (now.In location).abs).min 2 ++ [':'])
        (absClock (now.In location).abs).sec 2 := by
  simp only [currentTimeIn, Time.Format, appendFormat_layout, Option.map_some', Option.getD_some]

/-! ## The response writer -/

theorem Write_wroteHeader (w : ResponseWriter) (data : String) :
    (w.Write data).wroteHeader = true := by
  unfold ResponseWriter.Write ResponseWriter.WriteHeader
  cases h : w.wroteHeader <;> simp [h]

theorem Write_status_of_wrote (w : ResponseWriter) (data : String) (h : w.wroteHeader = true) :
    (w.Write data).status = w.status := by
  simp [ResponseWriter.Write, h]

theorem Write_status_fresh (w : ResponseWriter) (data : String) (h : w.wroteHeader = false) :
    (w.Write data).status = StatusOK := by
  simp [ResponseWriter.Write, ResponseWriter.WriteHeader, h]

theorem Write_body (w : ResponseWriter) (data : String) :
    (w.Write data).body = w.body ++ data := by
  unfold ResponseWriter.Write ResponseWriter.WriteHeader
  cases h : w.wroteHeader <;> simp [h]

theorem foldl_Write_body (chunks : List String) : ∀ w : ResponseWriter,
    (chunks.foldl ResponseWriter.Write w).body = chunks.foldl (fun r s => r ++ s) w.body := by
  induction chunks with
  | nil => intro w; rfl
  | cons c cs ih => intro w; rw [List.foldl_cons, ih, Write_body, List.foldl_cons]

theorem foldl_Write_header (chunks : List String) : ∀ w : ResponseWriter,
    (chunks.foldl ResponseWriter.Write w).header = w.header := by
  induction chunks with
  | nil => intro w; rfl
  | cons c cs ih =>
    intro w
    rw [List.foldl_cons, ih]
    unfold ResponseWriter.Write ResponseWriter.WriteHeader
    cases h : w.wroteHeader <;> simp [h]

theorem foldl_Write_status_of_wrote (chunks : List String) : ∀ w : ResponseWriter,
    w.wroteHeader = true →
    (chunks.foldl ResponseWriter.Write w).status = w.status ∧
    (chunks.foldl ResponseWriter.Write w).wroteHeader = true := by
  induction chunks with
  | nil => intro w h; exact ⟨rfl, h⟩
  | cons c cs ih =>
    intro w h
    rw [List.foldl_cons]
    have := ih (w.Write c) (Write_wroteHeader w c)
    rw [Write_status_of_wrote w c h] at this
    exact this

theorem finish_foldl_Write_status (chunks : List String) (w : ResponseWriter)
    (h : w.wroteHeader = false) :
    (finishRequest (chunks.foldl ResponseWriter.Write w)).status = StatusOK := by
  cases chunks with
  | nil => simp [finishRequest, ResponseWriter.WriteHeader, h]
  | cons c cs =>
    rw [List.foldl_cons]
    have hw := foldl_Write_status_of_wrote cs (w.Write c) (Write_wroteHeader w c)
    simp [finishRequest, hw.1, hw.2, Write_status_fresh w c h]

theorem finish_httpError_fresh (msg : String) (code : Nat) :
    finishRequest (httpError ResponseWriter.fresh msg code) =
      { header := [("Content-Type", "text/plain; charset=utf-8"),
                   ("X-Content-Type-Options", "nosniff")]
        wroteHeader := true
        status := code
        body := msg ++ "\n" } := by
  simp [finishRequest, httpError, ResponseWriter.fresh, ResponseWriter.Write,
    ResponseWriter.WriteHeader, Header.Set, Header.Del]

theorem finishRequest_body (w : ResponseWriter) : (finishRequest w).body = w.body := by
  unfold finishRequest ResponseWriter.WriteHeader
  cases h : w.wroteHeader <;> simp [h]

theorem finish_httpError_body (w : ResponseWriter) (msg : String) (code : Nat) :
    (finishRequest (httpError w msg code)).body = w.body ++ (msg ++ "\n") := by
  rw [finishRequest_body]
  unfold httpError
  rw [Write_body]
  unfold ResponseWriter.WriteHeader
  cases h : w.wroteHeader <;> simp [h]

theorem foldl_Write_fresh_body (chunks : List String) :
    (chunks.foldl ResponseWriter.Write ResponseWriter.fresh).body = String.join chunks := by
  rw [foldl_Write_body]
  rfl

theorem serve_timezone_fails (env : World) (db : TimeLog) (r : Request) (e : GoError)
    (hloc : env.loadLocation "America/Toronto" = .error e) :
    serve env db r =
      { w := finishRequest (httpError ResponseWriter.fresh "Error loading Toronto timezone"
          StatusInternalServerError)
        timeLog := db
        calls := [.loadLocation "America/Toronto",
                  .httpError "Error loading Toronto timezone" StatusInternalServerError] } := by
  simp [serve, handler, hloc]

theorem serve_insert_fails (env : World) (db : TimeLog) (r : Request) (location : Location)
    (e : GoError) (hloc : env.loadLocation "America/Toronto" = .ok location)
    (hins : env.dbFault db insertQuery [currentTimeIn env.now location] = some e) :
    serve env db r =
      { w := finishRequest (httpError ResponseWriter.fresh "Error logging time to database"
          StatusInternalServerError)
        timeLog := db
        calls := [.loadLocation "America/Toronto", .now,
                  .exec insertQuery [currentTimeIn env.now location],
                  .httpError "Error logging time to database" StatusInternalServerError] } := by
  simp [serve, handler, hloc, hins, dbExec]

theorem serve_load_fails (env : World) (db : TimeLog) (r : Request) (location : Location)
    (e : GoError) (hloc : env.loadLocation "America/Toronto" = .ok location)
    (hins : env.dbFault db insertQuery [currentTimeIn env.now location] = none)
    (hparse : env.parseFiles "templates/index.html" = .error e) :
    serve env db r =
      { w := finishRequest (httpError ResponseWriter.fresh "Error loading template"
          StatusInternalServerError)
        timeLog := db ++ [currentTimeIn env.now location]
        calls := [.loadLocation "America/Toronto", .now,
                  .exec insertQuery [currentTimeIn env.now location],
                  .parseFiles "templates/index.html",
                  .httpError "Error loading template" StatusInternalServerError] } := by
  simp [serve, handler, hloc, hins, hparse, dbExec]

theorem serve_render_fails (env : World) (db : TimeLog) (r : Request) (location : Location)
    (tmpl : Template) (e : GoError) (hloc : env.loadLocation "America/Toronto" = .ok location)
    (hins : env.dbFault db insertQuery [currentTimeIn env.now location] = none)
    (hparse : env.parseFiles "templates/index.html" = .ok tmpl)
    (hexec : (tmpl.run { Time := currentTimeIn env.now location }).2 = some e) :
    serve env db r =
      { w := finishRequest (httpError
          ((tmpl.run { Time := currentTimeIn env.now location }).1.foldl ResponseWriter.Write
            ResponseWriter.fresh)
          "Error rendering template" StatusInternalServerError)
        timeLog := db ++ [currentTimeIn env.now location]
        calls := [.loadLocation "America/Toronto", .now,
                  .exec insertQuery [currentTimeIn env.now location],
                  .parseFiles "templates/index.html",
                  .execute { Time := currentTimeIn env.now location },
                  .httpError "Error rendering template" StatusInternalServerError] } := by
  simp [serve, handler, hloc, hins, hparse, hexec, dbExec, Template.Execute]

theorem serve_succeeds (env : World) (db : TimeLog) (r : Request) (location : Location)
    (tmpl : Template) (hloc : env.loadLocation "America/Toronto" = .ok location)
    (hins : env.dbFault db insertQuery [currentTimeIn env.now location] = none)
    (hparse : env.parseFiles "templates/index.html" = .ok tmpl)
    (hexec : (tmpl.run { Time := currentTimeIn env.now location }).2 = none) :
    serve env db r =
      { w := finishRequest
          ((tmpl.run { Time := currentTimeIn env.now location }).1.foldl ResponseWriter.Write
            ResponseWriter.fresh)
        timeLog := db ++ [currentTimeIn env.now location]
        calls := [.loadLocation "America/Toronto", .now,
                  .exec insertQuery [currentTimeIn env.now location],
                  .parseFiles "templates/index.html",
                  .execute { Time := currentTimeIn env.now location }] } := by
  simp [serve, handler, hloc, hins, hparse, hexec, dbExec, Template.Execute]

theorem firstFailure_timezone (env : World) (db : TimeLog) (e : GoError)
    (hloc : env.loadLocation "America/Toronto" = .error e) :
    firstFailure env db = some .timezone ∧ env.timestamp = none := by
  simp [firstFailure, World.timestamp, hloc]

theorem firstFailure_insert (env : World) (db : TimeLog) (location : Location) (e : GoError)
    (hloc : env.loadLocation "America/Toronto" = .ok location)
    (hins : env.dbFault db insertQuery [currentTimeIn env.now location] = some e) :
    firstFailure env db = some .insert ∧
    env.timestamp = some (currentTimeIn env.now location) := by
  simp [firstFailure, World.timestamp, hloc, hins]

theorem firstFailure_load (env : World) (db : TimeLog) (location : Location) (e : GoError)
    (hloc : env.loadLocation "America/Toronto" = .ok location)
    (hins : env.dbFault db insertQuery [currentTimeIn env.now location] = none)
    (hparse : env.parseFiles "templates/index.html" = .error e) :
    firstFailure env db = some .templateLoad ∧
    env.timestamp = some (currentTimeIn env.now location) := by
  simp [firstFailure, World.timestamp, hloc, hins, hparse]

theorem firstFailure_render (env : World) (db : TimeLog) (location : Location)
    (tmpl : Template) (e : GoError) (hloc : env.loadLocation "America/Toronto" = .ok location)
    (hins : env.dbFault db insertQuery [currentTimeIn env.now location] = none)
    (hparse : env.parseFiles "templates/index.html" = .ok tmpl)
    (hexec : (tmpl.run { Time := currentTimeIn env.now location }).2 = some e) :
    firstFailure env db = some .templateRender ∧
    env.timestamp = some (currentTimeIn env.now location) := by
  simp [firstFailure, World.timestamp, hloc, hins, hparse, hexec]

theorem firstFailure_none (env : World) (db : TimeLog) (location : Location)
    (tmpl : Template) (hloc : env.loadLocation "America/Toronto" = .ok location)
    (hins : env.dbFault db insertQuery [currentTimeIn env.now location] = none)
    (hparse : env.parseFiles "templates/index.html" = .ok tmpl)
    (hexec : (tmpl.run { Time := currentTimeIn env.now location }).2 = none) :
    firstFailure env db = none ∧
    env.timestamp = some (currentTimeIn env.now location) := by
  simp [firstFailure, World.timestamp, hloc, hins, hparse, hexec]

theorem httpError_status_of_wrote (w : ResponseWriter) (msg : String) (code : Nat)
    (h : w.wroteHeader = true) : (finishRequest (httpError w msg code)).status = w.status := by
  simp [finishRequest, httpError, ResponseWriter.Write, ResponseWriter.WriteHeader, h]

/-- Whenever the template writes at least one chunk and then fails, the
response keeps status 200 and its body starts with what was written. -/
theorem render_failure_after_output (env : World) (db : TimeLog) (r : Request)
    (location : Location) (tmpl : Template) (e : GoError) (c : String) (cs : List String)
    (hloc : env.loadLocation "America/Toronto" = .ok location)
    (hins : env.dbFault db insertQuery [currentTimeIn env.now location] = none)
    (hparse : env.parseFiles "templates/index.html" = .ok tmpl)
    (hrun : tmpl.run { Time := currentTimeIn env.now location } = (c :: cs, some e)) :
    (serve env db r).w.status = 200 := by
  have hexec : (tmpl.run { Time := currentTimeIn env.now location }).2 = some e := by rw [hrun]
  rw [serve_render_fails env db r location tmpl e hloc hins hparse hexec, hrun]
  show (finishRequest (httpError _ _ _)).status = 200
  have hw := foldl_Write_status_of_wrote cs (ResponseWriter.fresh.Write c)
    (Write_wroteHeader _ c)
  rw [List.foldl_cons, httpError_status_of_wrote _ _ _ hw.2, hw.1]
  rfl

/-! ## The claims -/

/-- C1: when the timezone resolves, the insert succeeds and the template
parses and executes, there is one string, the formatted clock reading, that
is both the value of the row the request adds to `time_log` (the sole
parameter bound to the INSERT) and the value of `PageVariables.Time` from
which the response body is rendered, whatever the instant. -/
theorem C1_inserted_string_is_rendered_string (env : World) (db : TimeLog) (r : Request)
    (location : Location) (tmpl : Template)
    (hloc : env.loadLocation "America/Toronto" = .ok location)
    (hins : env.dbFault db insertQuery [currentTimeIn env.now location] = none)
    (hparse : env.parseFiles "templates/index.html" = .ok tmpl)
    (hexec : (tmpl.run { Time := currentTimeIn env.now location }).2 = none) :
    ∃ ts : String, ts = currentTimeIn env.now location ∧
      (serve env db r).timeLog = db ++ [ts] ∧
      (serve env db r).w.body = String.join (tmpl.run { Time := ts }).1 ∧
      (serve env db r).calls =
        [.loadLocation "America/Toronto", .now,
         .exec "INSERT INTO time_log (timestamp) VALUES (?)" [ts],
         .parseFiles "templates/index.html", .execute { Time := ts }] := by
  refine ⟨_, rfl, ?_⟩
  rw [serve_succeeds env db r location tmpl hloc hins hparse hexec]
  refine ⟨rfl, ?_, rfl⟩
  show (finishRequest _).body = _
  rw [finishRequest_body, foldl_Write_fresh_body]

/-- Witness for C1: a healthy request on a table holding one row. -/
theorem C1_witness :
    ((worldAt 1700000000 0).loadLocation "America/Toronto" = .ok torontoEST ∧
     (worldAt 1700000000 0).dbFault ["2023-11-14 17:13:19"] insertQuery
        [currentTimeIn (worldAt 1700000000 0).now torontoEST] = none ∧
     (worldAt 1700000000 0).parseFiles "templates/index.html" = .ok headingTemplate ∧
     (headingTemplate.run { Time := currentTimeIn (worldAt 1700000000 0).now torontoEST }).2
        = none) ∧
    ∃ ts : String, ts = currentTimeIn (worldAt 1700000000 0).now torontoEST ∧
      (serve (worldAt 1700000000 0) ["2023-11-14 17:13:19"] getRoot).timeLog =
        ["2023-11-14 17:13:19"] ++ [ts] ∧
      (serve (worldAt 1700000000 0) ["2023-11-14 17:13:19"] getRoot).w.body =
        String.join (headingTemplate.run { Time := ts }).1 ∧
      (serve (worldAt 1700000000 0) ["2023-11-14 17:13:19"] getRoot).calls =
        [.loadLocation "America/Toronto", .now,
         .exec "INSERT INTO time_log (timestamp) VALUES (?)" [ts],
         .parseFiles "templates/index.html", .execute { Time := ts }] :=
  ⟨⟨rfl, rfl, rfl, rfl⟩,
   C1_inserted_string_is_rendered_string (worldAt 1700000000 0) ["2023-11-14 17:13:19"]
     getRoot torontoEST headingTemplate rfl rfl rfl rfl⟩

/-- C2, amended: for every clock reading whose year in the resolved zone lies
between 0 and 9999, formatting with the layout of the handler succeeds and
the timestamp matches the pattern of four digits, two digits and two digits
joined by hyphens, a blank, then three groups of two digits joined by colons:
19 characters in all. -/
theorem C2_timestamp_matches_pattern (now : Time) (location : Location)
    (hy0 : 0 ≤ (now.In location).Year) (hy1 : (now.In location).Year ≤ 9999) :
    (now.In location).Format layout = some (currentTimeIn now location) ∧
    matchesPattern timestampPattern (currentTimeIn now location).data = true ∧
    (currentTimeIn now location).data.length = 19 := by
  have hb := absDate_bounds (now.In location).abs
  have hc := absClock_bounds (now.In location).abs
  have hf := timestamp_fields (absDate (now.In location).abs) (absClock (now.In location).abs)
    hy0 hy1 hb.2.1 hb.2.2.2 hc.1 hc.2.1 hc.2.2
  have hs : (now.In location).Format layout = some (currentTimeIn now location) := by
    simp [currentTimeIn, Time.Format, appendFormat_layout]
  refine ⟨hs, ?_, ?_⟩
  · rw [currentTimeIn_data]; exact hf
  · rw [currentTimeIn_data, matchesPattern_length _ _ hf]; rfl

/-- Witness for C2: the reading 1700000000 in Toronto, 2023-11-14 17:13:20. -/
theorem C2_witness :
    (0 ≤ (Time.In ⟨1700000000, 0, none⟩ torontoEST).Year ∧
      (Time.In ⟨1700000000, 0, none⟩ torontoEST).Year ≤ 9999) ∧
    (Time.In ⟨1700000000, 0, none⟩ torontoEST).Format layout =
      some (currentTimeIn ⟨1700000000, 0, none⟩ torontoEST) ∧
    matchesPattern timestampPattern (currentTimeIn ⟨1700000000, 0, none⟩ torontoEST).data = true ∧
    (currentTimeIn ⟨1700000000, 0, none⟩ torontoEST).data.length = 19 :=
  ⟨by decide, C2_timestamp_matches_pattern ⟨1700000000, 0, none⟩ torontoEST (by decide) (by decide)⟩

/-- C2, as stated, fails: the first second of year 10000 in Toronto is
formatted with a five-digit year, 20 characters, and does not match. -/
theorem C2_counterexample :
    currentTimeIn ⟨253402318800, 0, none⟩ torontoEST = "10000-01-01 00:00:00" ∧
    (currentTimeIn ⟨253402318800, 0, none⟩ torontoEST).length = 20 ∧
    matchesPattern timestampPattern (currentTimeIn ⟨253402318800, 0, none⟩ torontoEST).data = false := by
  decide

/-- C3: when the timezone resolves and the insert returns an error, the
status is 500, the body is the message "Error logging time to database" as
`http.Error` prints it (the message and its line end) with the plain-text
headers, and the calls stop at the insert: the template is neither loaded
nor executed. -/
theorem C3_insert_failure_response (env : World) (db : TimeLog) (r : Request)
    (location : Location) (e : GoError)
    (hloc : env.loadLocation "America/Toronto" = .ok location)
    (hins : env.dbFault db insertQuery [currentTimeIn env.now location] = some e) :
    (serve env db r).w.status = 500 ∧
    (serve env db r).w.body = "Error logging time to database\n" ∧
    (serve env db r).w.header =
      [("Content-Type", "text/plain; charset=utf-8"), ("X-Content-Type-Options", "nosniff")] ∧
    (serve env db r).calls =
      [.loadLocation "America/Toronto", .now,
       .exec "INSERT INTO time_log (timestamp) VALUES (?)" [currentTimeIn env.now location],
       .httpError "Error logging time to database" 500] ∧
    stepsRun (serve env db r).calls = [.timezone, .insert] := by
  rw [serve_insert_fails env db r location e hloc hins, finish_httpError_fresh]
  exact ⟨rfl, rfl, rfl, rfl, rfl⟩

/-- Witness for C3: the store refuses the connection. -/
theorem C3_witness :
    (worldDbDown.loadLocation "America/Toronto" = .ok torontoEST ∧
     worldDbDown.dbFault [] insertQuery [currentTimeIn worldDbDown.now torontoEST] =
       some "dial tcp 127.0.0.1:3306: connection refused") ∧
    (serve worldDbDown [] getRoot).w.status = 500 ∧
    (serve worldDbDown [] getRoot).w.body = "Error logging time to database\n" ∧
    (serve worldDbDown [] getRoot).w.header =
      [("Content-Type", "text/plain; charset=utf-8"), ("X-Content-Type-Options", "nosniff")] ∧
    (serve worldDbDown [] getRoot).calls =
      [.loadLocation "America/Toronto", .now,
       .exec "INSERT INTO time_log (timestamp) VALUES (?)"
         [currentTimeIn worldDbDown.now torontoEST],
       .httpError "Error logging time to database" 500] ∧
    stepsRun (serve worldDbDown [] getRoot).calls = [.timezone, .insert] :=
  ⟨⟨rfl, rfl⟩, C3_insert_failure_response worldDbDown [] getRoot torontoEST _ rfl rfl⟩

/-- C4, at the failing input: a template that writes part of the page and
then fails leaves status 200, committed by the first write, and a body made
of the incomplete page followed by the error message; the 500 asked for by
`http.Error` comes too late. -/
theorem C4_partial_render_keeps_status_200 :
    (serve worldRenderFails [] getRoot).w.status = 200 ∧
    (serve worldRenderFails [] getRoot).w.body =
      "<h1>2023-11-14 17:13:20Error rendering template\n" ∧
    errorMessages (serve worldRenderFails [] getRoot).calls = ["Error rendering template"] := by
  decide

/-- C5: when all four steps succeed, the status is 200, the body is exactly
what executing the parsed template with `Time` bound to the formatted
timestamp writes, the table gains exactly one row, holding that timestamp,
and exactly one insert is attempted. -/
theorem C5_success_response_and_row (env : World) (db : TimeLog) (r : Request)
    (location : Location) (tmpl : Template)
    (hloc : env.loadLocation "America/Toronto" = .ok location)
    (hins : env.dbFault db insertQuery [currentTimeIn env.now location] = none)
    (hparse : env.parseFiles "templates/index.html" = .ok tmpl)
    (hexec : (tmpl.run { Time := currentTimeIn env.now location }).2 = none) :
    (serve env db r).w.status = 200 ∧
    (serve env db r).w.body =
      String.join (tmpl.run { Time := currentTimeIn env.now location }).1 ∧
    (serve env db r).timeLog = db ++ [currentTimeIn env.now location] ∧
    (serve env db r).calls.filter Call.isExec =
      [.exec "INSERT INTO time_log (timestamp) VALUES (?)" [currentTimeIn env.now location]] := by
  rw [serve_succeeds env db r location tmpl hloc hins hparse hexec]
  refine ⟨finish_foldl_Write_status _ _ rfl, ?_, rfl, rfl⟩
  show (finishRequest _).body = _
  rw [finishRequest_body, foldl_Write_body]
  rfl

/-- Witness for C5: a healthy request on a table holding one row. -/
theorem C5_witness :
    ((worldAt 1700000000 0).loadLocation "America/Toronto" = .ok torontoEST ∧
     (worldAt 1700000000 0).dbFault ["2023-11-14 17:13:19"] insertQuery
        [currentTimeIn (worldAt 1700000000 0).now torontoEST] = none ∧
     (worldAt 1700000000 0).parseFiles "templates/index.html" = .ok headingTemplate ∧
     (headingTemplate.run { Time := currentTimeIn (worldAt 1700000000 0).now torontoEST }).2
        = none) ∧
    (serve (worldAt 1700000000 0) ["2023-11-14 17:13:19"] getRoot).w.status = 200 ∧
    (serve (worldAt 1700000000 0) ["2023-11-14 17:13:19"] getRoot).w.body =
      String.join
        (headingTemplate.run
          { Time := currentTimeIn (worldAt 1700000000 0).now torontoEST }).1 ∧
    (serve (worldAt 1700000000 0) ["2023-11-14 17:13:19"] getRoot).timeLog =
      ["2023-11-14 17:13:19"] ++ [currentTimeIn (worldAt 1700000000 0).now torontoEST] ∧
    (serve (worldAt 1700000000 0) ["2023-11-14 17:13:19"] getRoot).calls.filter Call.isExec =
      [.exec "INSERT INTO time_log (timestamp) VALUES (?)"
        [currentTimeIn (worldAt 1700000000 0).now torontoEST]] :=
  ⟨⟨rfl, rfl, rfl, rfl⟩,
   C5_success_response_and_row (worldAt 1700000000 0) ["2023-11-14 17:13:19"] getRoot
     torontoEST headingTemplate rfl rfl rfl rfl⟩

/-- C6: when `templates/index.html` cannot be parsed, the status is 500,
whether the insert of that request succeeded or failed (and also when the
timezone did not resolve). -/
theorem C6_template_absent_status_500 (env : World) (db : TimeLog) (r : Request) (e : GoError)
    (hparse : env.parseFiles "templates/index.html" = .error e) :
    (serve env db r).w.status = 500 := by
  cases hloc : env.loadLocation "America/Toronto" with
  | error e1 => rw [serve_timezone_fails env db r e1 hloc, finish_httpError_fresh]; rfl
  | ok location =>
    cases hins : env.dbFault db insertQuery [currentTimeIn env.now location] with
    | some e2 => rw [serve_insert_fails env db r location e2 hloc hins, finish_httpError_fresh]; rfl
    | none => rw [serve_load_fails env db r location e hloc hins hparse, finish_httpError_fresh]; rfl

/-- Witness for C6: the template file is absent. -/
theorem C6_witness :
    worldNoTemplate.parseFiles "templates/index.html" =
      .error "open templates/index.html: no such file or directory" ∧
    (serve worldNoTemplate [] getRoot).w.status = 500 :=
  ⟨rfl, C6_template_absent_status_500 worldNoTemplate [] getRoot _ rfl⟩

/-- C7: when "America/Toronto" cannot be resolved, the status is 500 and the
body is the message "Error loading Toronto timezone" as `http.Error` prints
it; the only calls are the one resolution attempt and the error reply, so no
insert is attempted, no template is loaded and the table is unchanged. -/
theorem C7_timezone_failure (env : World) (db : TimeLog) (r : Request) (e : GoError)
    (hloc : env.loadLocation "America/Toronto" = .error e) :
    (serve env db r).w.status = 500 ∧
    (serve env db r).w.body = "Error loading Toronto timezone\n" ∧
    (serve env db r).calls =
      [.loadLocation "America/Toronto", .httpError "Error loading Toronto timezone" 500] ∧
    (serve env db r).timeLog = db := by
  rw [serve_timezone_fails env db r e hloc, finish_httpError_fresh]
  exact ⟨rfl, rfl, rfl, rfl⟩

/-- Witness for C7: no zone data is installed. -/
theorem C7_witness :
    worldNoZone.loadLocation "America/Toronto" = .error "unknown time zone America/Toronto" ∧
    (serve worldNoZone ["2023-11-14 17:13:19"] getRoot).w.status = 500 ∧
    (serve worldNoZone ["2023-11-14 17:13:19"] getRoot).w.body =
      "Error loading Toronto timezone\n" ∧
    (serve worldNoZone ["2023-11-14 17:13:19"] getRoot).calls =
      [.loadLocation "America/Toronto", .httpError "Error loading Toronto timezone" 500] ∧
    (serve worldNoZone ["2023-11-14 17:13:19"] getRoot).timeLog = ["2023-11-14 17:13:19"] :=
  ⟨rfl, C7_timezone_failure worldNoZone ["2023-11-14 17:13:19"] getRoot _ rfl⟩

/-- C8, as stated, fails: with the template file absent the response is the
500 error while the row of the request is already in `time_log`. -/
theorem C8_counterexample :
    (serve worldNoTemplate [] getRoot).w.status = 500 ∧
    (serve worldNoTemplate [] getRoot).timeLog = ["2023-11-14 17:13:20"] ∧
    ¬ allOrNothing [] (serve worldNoTemplate [] getRoot) := by
  have h1 : (serve worldNoTemplate [] getRoot).w.status = 500 := by decide
  have h2 : (serve worldNoTemplate [] getRoot).timeLog = ["2023-11-14 17:13:20"] := by decide
  refine ⟨h1, h2, ?_⟩
  intro h
  rcases h with ⟨hs, _⟩ | ⟨_, ht⟩
  · rw [h1] at hs; exact absurd hs (by decide)
  · rw [h2] at ht; exact absurd ht (by decide)

/-- C8, amended: a request that fully succeeds answers 200 and adds one row;
a request that fails at timezone resolution or at the insert answers 500 and
leaves `time_log` unchanged; a request that fails at template load answers
500 with its row already inserted and kept; a request that fails at template
render writes the render error message, after whatever the template wrote,
with its row already inserted and kept. -/
theorem C8_storage_by_failing_step (env : World) (db : TimeLog) (r : Request) :
    match firstFailure env db with
    | none =>
        (serve env db r).w.status = 200 ∧
        ∃ row, env.timestamp = some row ∧ (serve env db r).timeLog = db ++ [row]
    | some .timezone =>
        (serve env db r).w.status = 500 ∧ (serve env db r).timeLog = db
    | some .insert =>
        (serve env db r).w.status = 500 ∧ (serve env db r).timeLog = db
    | some .templateLoad =>
        (serve env db r).w.status = 500 ∧
        ∃ row, env.timestamp = some row ∧ (serve env db r).timeLog = db ++ [row]
    | some .templateRender =>
        errorMessages (serve env db r).calls = ["Error rendering template"] ∧
        (∃ row, env.timestamp = some row ∧ (serve env db r).timeLog = db ++ [row]) ∧
        ∃ row tmpl, env.timestamp = some row ∧
          env.parseFiles "templates/index.html" = .ok tmpl ∧
          (serve env db r).w.body =
            String.join (tmpl.run { Time := row }).1 ++ "Error rendering template\n" := by
  cases hloc : env.loadLocation "America/Toronto" with
  | error e =>
    rw [(firstFailure_timezone env db e hloc).1, serve_timezone_fails env db r e hloc,
      finish_httpError_fresh]
    exact ⟨rfl, rfl⟩
  | ok location =>
    cases hins : env.dbFault db insertQuery [currentTimeIn env.now location] with
    | some e =>
      rw [(firstFailure_insert env db location e hloc hins).1,
        serve_insert_fails env db r location e hloc hins, finish_httpError_fresh]
      exact ⟨rfl, rfl⟩
    | none =>
      cases hparse : env.parseFiles "templates/index.html" with
      | error e =>
        rw [(firstFailure_load env db location e hloc hins hparse).1,
          serve_load_fails env db r location e hloc hins hparse, finish_httpError_fresh]
        exact ⟨rfl, _, (firstFailure_load env db location e hloc hins hparse).2, rfl⟩
      | ok tmpl =>
        cases hexec : (tmpl.run { Time := currentTimeIn env.now location }).2 with
        | some e =>
          rw [(firstFailure_render env db location tmpl e hloc hins hparse hexec).1,
            serve_render_fails env db r location tmpl e hloc hins hparse hexec]
          refine ⟨rfl,
            ⟨_, (firstFailure_render env db location tmpl e hloc hins hparse hexec).2, rfl⟩,
            _, tmpl, (firstFailure_render env db location tmpl e hloc hins hparse hexec).2,
            rfl, ?_⟩
          show (finishRequest (httpError _ _ _)).body = _
          rw [finish_httpError_body, foldl_Write_fresh_body]
          rfl
        | none =>
          rw [(firstFailure_none env db location tmpl hloc hins hparse hexec).1,
            serve_succeeds env db r location tmpl hloc hins hparse hexec]
          exact ⟨finish_foldl_Write_status _ _ rfl, _,
            (firstFailure_none env db location tmpl hloc hins hparse hexec).2, rfl⟩

/-- C9: the four error messages are pairwise distinct; whatever the outcomes
of the steps, the response carries exactly the message of the first failing
step in the order timezone resolution, insert, template load, template
render (none when every step succeeds), and nothing of a later step happens:
after a timezone or insert failure the table is unchanged and the body is the
message alone, after a template load failure the body is the message alone,
after a render failure the message follows what the template wrote. On the
call log, the steps executed are exactly those up to and including the first
failing one, in that order, and each message is sent with code 500. -/
theorem C9_first_failing_step_decides (env : World) (db : TimeLog) (r : Request) :
    [Step.message .timezone, Step.message .insert, Step.message .templateLoad,
      Step.message .templateRender] =
      ["Error loading Toronto timezone", "Error logging time to database",
       "Error loading template", "Error rendering template"] ∧
    [Step.message .timezone, Step.message .insert, Step.message .templateLoad,
      Step.message .templateRender].Nodup ∧
    (match firstFailure env db with
      | some .timezone =>
          (serve env db r).w.status = 500 ∧
          (serve env db r).w.body = "Error loading Toronto timezone\n" ∧
          (serve env db r).timeLog = db
      | some .insert =>
          (serve env db r).w.status = 500 ∧
          (serve env db r).w.body = "Error logging time to database\n" ∧
          (serve env db r).timeLog = db
      | some .templateLoad =>
          (serve env db r).w.status = 500 ∧
          (serve env db r).w.body = "Error loading template\n" ∧
          ∃ row, env.timestamp = some row ∧ (serve env db r).timeLog = db ++ [row]
      | some .templateRender =>
          ∃ row tmpl, env.timestamp = some row ∧
            env.parseFiles "templates/index.html" = .ok tmpl ∧
            (serve env db r).w.body =
              String.join (tmpl.run { Time := row }).1 ++ "Error rendering template\n" ∧
            (serve env db r).timeLog = db ++ [row]
      | none =>
          ∃ row tmpl, env.timestamp = some row ∧
            env.parseFiles "templates/index.html" = .ok tmpl ∧
            (serve env db r).w.status = 200 ∧
            (serve env db r).w.body = String.join (tmpl.run { Time := row }).1 ∧
            (serve env db r).timeLog = db ++ [row]) ∧
    errorMessages (serve env db r).calls = ((firstFailure env db).map Step.message).toList ∧
    stepsRun (serve env db r).calls = stepsThrough (firstFailure env db) ∧
    ∀ msg code, Call.httpError msg code ∈ (serve env db r).calls → code = 500 := by
  refine ⟨rfl, by decide, ?_⟩
  cases hloc : env.loadLocation "America/Toronto" with
  | error e =>
    rw [(firstFailure_timezone env db e hloc).1, serve_timezone_fails env db r e hloc,
      finish_httpError_fresh]
    refine ⟨⟨rfl, rfl, rfl⟩, rfl, rfl, ?_⟩
    intro msg code h
    simp [StatusInternalServerError] at h
    exact h.2
  | ok location =>
    cases hins : env.dbFault db insertQuery [currentTimeIn env.now location] with
    | some e =>
      rw [(firstFailure_insert env db location e hloc hins).1,
        serve_insert_fails env db r location e hloc hins, finish_httpError_fresh]
      refine ⟨⟨rfl, rfl, rfl⟩, rfl, rfl, ?_⟩
      intro msg code h
      simp [StatusInternalServerError] at h
      exact h.2
    | none =>
      cases hparse : env.parseFiles "templates/index.html" with
      | error e =>
        rw [(firstFailure_load env db location e hloc hins hparse).1,
          serve_load_fails env db r location e hloc hins hparse, finish_httpError_fresh]
        refine ⟨⟨rfl, rfl, _, (firstFailure_load env db location e hloc hins hparse).2, rfl⟩,
          rfl, rfl, ?_⟩
        intro msg code h
        simp [StatusInternalServerError] at h
        exact h.2
      | ok tmpl =>
        cases hexec : (tmpl.run { Time := currentTimeIn env.now location }).2 with
        | some e =>
          rw [(firstFailure_render env db location tmpl e hloc hins hparse hexec).1,
            serve_render_fails env db r location tmpl e hloc hins hparse hexec]
          refine ⟨⟨_, tmpl,
            (firstFailure_render env db location tmpl e hloc hins hparse hexec).2, rfl, ?_,
            rfl⟩, rfl, rfl, ?_⟩
          · show (finishRequest (httpError _ _ _)).body = _
            rw [finish_httpError_body, foldl_Write_fresh_body]
            rfl
          · intro msg code h
            simp [StatusInternalServerError] at h
            exact h.2
        | none =>
          rw [(firstFailure_none env db location tmpl hloc hins hparse hexec).1,
            serve_succeeds env db r location tmpl hloc hins hparse hexec]
          refine ⟨⟨_, tmpl,
            (firstFailure_none env db location tmpl hloc hins hparse hexec).2, rfl,
            finish_foldl_Write_status _ _ rfl, ?_, rfl⟩, rfl, rfl, ?_⟩
          · show (finishRequest _).body = _
            rw [finishRequest_body, foldl_Write_fresh_body]
          · intro msg code h
            simp at h

end Week13
